import Mathlib

/-!
# Postal code to temperature pipeline

A shallow embedding of the two services of the repository:

* `serv_A/main.go`: the Gateway (`cepHandler`, `getCityByCEP`);
* `serv_B/main.go`: the Downstream Service (`weatherHandler`, `getCityByCEP`,
  `getWeatherByCity`, `convertTemperature`).

Go strings are byte sequences, `float64` values are IEEE 754 binary64 numbers
with round-to-nearest-even arithmetic, and every outbound HTTP call is a
function of the environment whose use is recorded in a call log.
-/

/-! ## Go strings -/

/-- A Go `string`: a sequence of bytes. -/
abbrev GoString := List (Fin 256)

/-- The byte with the given value. -/
def byte (n : Nat) : Fin 256 := ⟨n % 256, Nat.mod_lt _ (by decide)⟩

/-- UTF-8 encoding of one character, as in a Go string literal. -/
def utf8 (c : Char) : GoString :=
  let v := c.toNat
  if v < 0x80 then [byte v]
  else if v < 0x800 then [byte (0xC0 + v / 64), byte (0x80 + v % 64)]
  else if v < 0x10000 then
    [byte (0xE0 + v / 4096), byte (0x80 + v / 64 % 64), byte (0x80 + v % 64)]
  else
    [byte (0xF0 + v / 262144), byte (0x80 + v / 4096 % 64), byte (0x80 + v / 64 % 64),
      byte (0x80 + v % 64)]

/-- The Go string written as the given literal. -/
def str (s : String) : GoString := s.toList.flatMap utf8

/-- Go `len(s)`: the number of bytes. -/
def len (s : GoString) : Nat := s.length

/-! ## float64

Every arithmetic operation rounds its exact result once, to nearest with ties
to even; a product and the sum that follows it are two operations. -/

/-- A `float64`: not-a-number, an infinity, or the finite value
`(-1)^neg * m * 2^e`. The values produced by the arithmetic below are in the
IEEE form `m < 2^53`, `-1074 ≤ e ≤ 971`, and `2^52 ≤ m` unless `e = -1074`. -/
inductive F64 where
  | nan
  | inf (neg : Bool)
  | fin (neg : Bool) (m : Nat) (e : Int)
  deriving DecidableEq, Repr

namespace F64

/-- Number of binary digits of `m`, by halving; `fuel` bounds the depth. -/
def bitLenAux : Nat → Nat → Nat
  | 0, _ => 0
  | fuel + 1, m => if m = 0 then 0 else bitLenAux fuel (m / 2) + 1

/-- Number of binary digits of `m` (`0` for `0`). -/
def bitLen (m : Nat) : Nat := bitLenAux m m

/-- Final step of rounding: a significand that was rounded up to `2^53` is
renormalised, and an exponent above the largest one overflows to infinity. -/
def pack (neg : Bool) (q : Nat) (e : Int) : F64 :=
  let q1 := if q = 2 ^ 53 then 2 ^ 52 else q
  let e1 := if q = 2 ^ 53 then e + 1 else e
  if e1 > 971 then inf neg else fin neg q1 e1

/-- Round the exact value `(-1)^neg * m * 2^e` to the nearest float64, ties to
the even significand. -/
def round (neg : Bool) (m : Nat) (e : Int) : F64 :=
  if m = 0 then fin neg 0 (-1074)
  else
    let e1 : Int := max (e + (bitLen m : Int) - 53) (-1074)
    if e1 ≤ e then pack neg (m <<< (e - e1).toNat) e1
    else
      let s := (e1 - e).toNat
      let q := m >>> s
      let r := m % (1 <<< s)
      let h := 1 <<< (s - 1)
      pack neg (if r > h ∨ (r = h ∧ q % 2 = 1) then q + 1 else q) e1

/-- Go `x * y` on float64. -/
def mul : F64 → F64 → F64
  | nan, _ => nan
  | _, nan => nan
  | inf a, inf b => inf (xor a b)
  | inf a, fin b m _ => if m = 0 then nan else inf (xor a b)
  | fin a m _, inf b => if m = 0 then nan else inf (xor a b)
  | fin a m1 e1, fin b m2 e2 => round (xor a b) (m1 * m2) (e1 + e2)

/-- The integer `(-1)^neg * m`. -/
def signed (neg : Bool) (m : Nat) : Int := if neg then -(m : Int) else (m : Int)

/-- Go `x + y` on float64. -/
def add : F64 → F64 → F64
  | nan, _ => nan
  | _, nan => nan
  | inf a, inf b => if a = b then inf a else nan
  | inf a, fin _ _ _ => inf a
  | fin _ _ _, inf b => inf b
  | fin a m1 e1, fin b m2 e2 =>
    let e := min e1 e2
    let s := signed a (m1 <<< (e1 - e).toNat) + signed b (m2 <<< (e2 - e).toNat)
    if s = 0 then fin (a && b) 0 (-1074) else round (decide (s < 0)) s.natAbs e

/-- The float64 nearest to the fraction `(-1)^neg * p / q` (for `q > 0`): the
value of a decimal constant or of a decimal number read from JSON. The
quotient is computed to at least 56 binary digits and one sticky digit. -/
def ofRatio (neg : Bool) (p q : Nat) : F64 :=
  let k := 56 + bitLen q - bitLen p
  let d := (p <<< k) / q
  let sticky := if (p <<< k) % q = 0 then 0 else 1
  round neg (2 * d + sticky) (-((k : Int) + 1))

/-- The float64 value of a natural-number constant. -/
def ofNat (n : Nat) : F64 := round false n 0

/-- Go `math.Float64bits` for values in IEEE form: sign, biased exponent and
fraction. -/
def bits : F64 → Nat
  | nan => 0x7FF8000000000001
  | inf neg => (if neg then 2 ^ 63 else 0) + 0x7FF0000000000000
  | fin neg m e =>
    (if neg then 2 ^ 63 else 0) +
      (if m < 2 ^ 52 then m else (e + 1075).toNat * 2 ^ 52 + (m - 2 ^ 52))

/-- Neither an infinity nor not-a-number. -/
def isFinite : F64 → Bool
  | fin _ _ _ => true
  | _ => false

end F64

/-! ## net/url -/

/-- Go `strings.Cut(s, sep)` for a one-byte separator: the text before and
after its first occurrence, or `(s, "")` when there is none. -/
def cut (sep : Fin 256) : GoString → GoString × GoString
  | [] => ([], [])
  | c :: s => if c = sep then ([], s) else ((cut sep s).1.cons c, (cut sep s).2)

/-- Go `stringContainsCTLByte` of net/url: a byte below 0x20 or equal to 0x7f. -/
def stringContainsCTLByte (s : GoString) : Bool :=
  s.any (fun b => decide (b.val < 0x20 ∨ b.val = 0x7f))

/-- Go `ishex` of net/url. -/
def ishex (c : Fin 256) : Bool :=
  decide ((0x30 ≤ c.val ∧ c.val ≤ 0x39) ∨ (0x61 ≤ c.val ∧ c.val ≤ 0x66) ∨
    (0x41 ≤ c.val ∧ c.val ≤ 0x46))

/-- Go `unhex` of net/url. -/
def unhex (c : Fin 256) : Nat :=
  if 0x30 ≤ c.val ∧ c.val ≤ 0x39 then c.val - 0x30
  else if 0x61 ≤ c.val ∧ c.val ≤ 0x66 then c.val - 0x61 + 10
  else if 0x41 ≤ c.val ∧ c.val ≤ 0x46 then c.val - 0x41 + 10
  else 0

/-- Go `unescape(s, mode)` of net/url for the modes without host checks:
`%XY` becomes the byte `XY`, a malformed `%` is an error (`none`), and `+`
becomes a space when `query` is set (mode `encodeQueryComponent`; the
fragment mode leaves it). -/
def unescape (query : Bool) : GoString → Option GoString
  | [] => some []
  | c :: s =>
    if c = 0x25 then
      match s with
      | h1 :: h2 :: t =>
        if ishex h1 && ishex h2 then
          (unescape query t).map (fun r => byte (16 * unhex h1 + unhex h2) :: r)
        else none
      | _ => none
    else if c = 0x2B && query then (unescape query s).map (fun r => (0x20 : Fin 256) :: r)
    else (unescape query s).map (fun r => c :: r)

/-- Go `getScheme` of net/url: `some (scheme, rest)`, or `none` for the error
"missing protocol scheme". `i` is the index reached, `acc` the bytes read. -/
def getSchemeAux (rawURL : GoString) : Nat → GoString → GoString → Option (GoString × GoString)
  | _, _, [] => some ([], rawURL)
  | i, acc, c :: s =>
    if (0x61 ≤ c.val ∧ c.val ≤ 0x7A) ∨ (0x41 ≤ c.val ∧ c.val ≤ 0x5A) then
      getSchemeAux rawURL (i + 1) (acc ++ [c]) s
    else if (0x30 ≤ c.val ∧ c.val ≤ 0x39) ∨ c = 0x2B ∨ c = 0x2D ∨ c = 0x2E then
      if i = 0 then some ([], rawURL) else getSchemeAux rawURL (i + 1) (acc ++ [c]) s
    else if c = 0x3A then
      if i = 0 then none else some (acc, s)
    else some ([], rawURL)

/-- Go `getScheme` of net/url. -/
def getScheme (rawURL : GoString) : Option (GoString × GoString) :=
  getSchemeAux rawURL 0 [] rawURL

/-- The fields of a Go `url.URL` that the services use. -/
structure URL where
  Scheme : GoString
  Host : GoString
  Path : GoString
  RawQuery : GoString
  Fragment : GoString
  deriving DecidableEq, Repr

/-- Go `url.Parse` on an absolute URL `scheme://authority/path?query#fragment`:
the fragment is cut at the first `#` and unescaped, a control byte before it
is an error, the query is what follows the first `?`, the authority runs to
the first `/`. Authority and path are kept as written; in the URL the Gateway
builds they are the constants `service_b:4444` and `/`. An error is
reported with a message naming its kind. -/
def urlParse (rawURL : GoString) : Except GoString URL :=
  let u := (cut 0x23 rawURL).1
  let frag := (cut 0x23 rawURL).2
  if stringContainsCTLByte u then .error (str "net/url: invalid control character in URL")
  else
    match getScheme u with
    | none => .error (str "missing protocol scheme")
    | some (scheme, rest) =>
      let rest1 := (cut 0x3F rest).1
      let rawQuery := (cut 0x3F rest).2
      let authority := (cut 0x2F (rest1.drop 2)).1
      let path := rest1.drop (2 + authority.length)
      match unescape false frag with
      | none => .error (str "invalid URL escape")
      | some f =>
        .ok { Scheme := scheme, Host := authority, Path := path, RawQuery := rawQuery,
              Fragment := f }

/-- Go `url.ParseQuery` with its error dropped, as `URL.Query` does: the
pairs in order of appearance. A segment with a semicolon, an empty segment,
or one whose key or value does not unescape, is skipped. `fuel` bounds the
number of segments. -/
def parseQueryAux : Nat → GoString → List (GoString × GoString)
  | 0, _ => []
  | fuel + 1, query =>
    if query = [] then []
    else
      let key := (cut 0x26 query).1
      let rest := (cut 0x26 query).2
      if key.contains 0x3B then parseQueryAux fuel rest
      else if key = [] then parseQueryAux fuel rest
      else
        match unescape true (cut 0x3D key).1, unescape true (cut 0x3D key).2 with
        | some k, some v => (k, v) :: parseQueryAux fuel rest
        | _, _ => parseQueryAux fuel rest

/-- Go `u.Query()`: every segment consumes at least one byte of the query. -/
def parseQuery (query : GoString) : List (GoString × GoString) :=
  parseQueryAux (query.length + 1) query

/-- Go `Values.Get(key)`: the first value of the key, or the empty string. -/
def valuesGet (vs : List (GoString × GoString)) (key : GoString) : GoString :=
  match vs.find? (fun kv => kv.1 = key) with
  | some kv => kv.2
  | none => []

/-! ## HTTP collaborators -/

/-- What `json.Decoder.Decode` makes of a response body: an error, or a
decoded document in which the field the target struct reads is present with
a value or absent. -/
inductive Decoded (α : Type) where
  | failure (err : GoString)
  | value (field : Option α)

/-- Result of `http.Get`: an error, or a response with its status code and
body. -/
inductive GetResult (α : Type) where
  | failed (err : GoString)
  | response (StatusCode : Nat) (Body : Decoded α)

/-- An `*http.Request` as far as the handlers read it: method and URL. -/
structure Request where
  Method : GoString
  URL : URL
  deriving DecidableEq, Repr

/-- One outbound call, as recorded in the call log of a handler. -/
inductive Call where
  | geocode (url : GoString)
  | weather (url : GoString)
  | serviceB (req : Request)
  deriving DecidableEq, Repr

/-- What a handler leaves in its `http.ResponseWriter`: `http.Error(w, msg,
code)` (status `code`, plain-text body `msg` followed by a newline), or the
header `Content-Type: application/json` with the default status 200 and the
body `json.Encoder.Encode` wrote (`none` when it wrote nothing). -/
inductive Response (β : Type) where
  | error (msg : GoString) (code : Nat)
  | json (body : Option β)
  deriving DecidableEq, Repr

/-- Status code of a response. -/
def Response.status {β : Type} : Response β → Nat
  | .error _ code => code
  | .json _ => 200

/-- Go `json.Encoder.Encode` of a value whose floats are `floats`: an
infinity or not-a-number is an unsupported value, the call returns an error
and writes nothing. -/
def jsonEncode {β : Type} (floats : List F64) (v : β) : Option β :=
  if floats.all F64.isFinite then some v else none

/-- The URL both `getCityByCEP` functions format:
`fmt.Sprintf("http://viacep.com.br/ws/%s/json/", cep)`. -/
def viaCEPURL (cep : GoString) : GoString :=
  str "http://viacep.com.br/ws/" ++ cep ++ str "/json/"

/-- The URL `getWeatherByCity` formats:
`fmt.Sprintf("http://api.weatherapi.com/v1/current.json?key=%s&q=%s", apiKey, city)`. -/
def weatherURL (apiKey city : GoString) : GoString :=
  str "http://api.weatherapi.com/v1/current.json?key=" ++ apiKey ++ str "&q=" ++ city

/-! ## serv_B: the Downstream Service -/

namespace ServB

/-- Go `ViaCEPResponse`. -/
structure ViaCEPResponse where
  Localidade : GoString
  deriving DecidableEq, Repr

/-- Go `WeatherAPIResponse`; `TempC` is the nested field `Current.TempC`. -/
structure WeatherAPIResponse where
  TempC : F64
  deriving DecidableEq, Repr

/-- The body `weatherHandler` encodes: the map with keys `temp_C`, `temp_F`
and `temp_K`. -/
structure TempBody where
  temp_C : F64
  temp_F : F64
  temp_K : F64
  deriving DecidableEq, Repr

/-- The collaborators of the Downstream Service: the process environment, the
geocode provider and the weather provider, each as a function of the URL
passed to `http.Get`. -/
structure Env where
  getenv : GoString → GoString
  viaCEP : GoString → GetResult GoString
  weatherAPI : GoString → GetResult F64

/-- Decoding a body into a zero `ViaCEPResponse`: an absent `localidade`
leaves the empty string. -/
def decodeViaCEP : Decoded GoString → Except GoString ViaCEPResponse
  | .failure err => .error err
  | .value field => .ok { Localidade := field.getD [] }

/-- Decoding a body into a zero `WeatherAPIResponse`: an absent
`current.temp_c` leaves 0. -/
def decodeWeatherAPI : Decoded F64 → Except GoString WeatherAPIResponse
  | .failure err => .error err
  | .value field => .ok { TempC := field.getD (F64.ofNat 0) }

/-- Go `getCityByCEP` of serv_B, with the log of its outbound calls. -/
def getCityByCEP (env : Env) (cep : GoString) : Except GoString GoString × List Call :=
  let url := viaCEPURL cep
  (match env.viaCEP url with
    | .failed err => .error err
    | .response StatusCode Body =>
      if StatusCode ≠ 200 then .error (str "can not find zipcode")
      else
        match decodeViaCEP Body with
        | .error err => .error err
        | .ok viaCEP =>
          if viaCEP.Localidade = [] then .error (str "can not find zipcode")
          else .ok viaCEP.Localidade,
    [Call.geocode url])

/-- Go `getWeatherByCity`, with the log of its outbound calls. -/
def getWeatherByCity (env : Env) (city : GoString) : Except GoString F64 × List Call :=
  let apiKey := env.getenv (str "WEATHER_API_KEY")
  let url := weatherURL apiKey city
  (match env.weatherAPI url with
    | .failed err => .error err
    | .response StatusCode Body =>
      if StatusCode ≠ 200 then .error (str "can not find weather data")
      else
        match decodeWeatherAPI Body with
        | .error err => .error err
        | .ok weatherAPI => .ok weatherAPI.TempC,
    [Call.weather url])

/-- Go `convertTemperature`; the constant `1.8` is the float64 nearest to
9/5. -/
def convertTemperature (tempC : F64) : F64 × F64 × F64 :=
  let tempF := F64.add (F64.mul tempC (F64.ofRatio false 9 5)) (F64.ofNat 32)
  let tempK := F64.add tempC (F64.ofNat 273)
  (tempC, tempF, tempK)

/-- The converter as the specification words it: `(c, c*1.8+32, c+273)`. -/
def convertTemperatureSpec (c : F64) : F64 × F64 × F64 :=
  (c, F64.add (F64.mul c (F64.ofRatio false 18 10)) (F64.ofNat 32), F64.add c (F64.ofNat 273))

/-- The postal code `weatherHandler` reads: `r.URL.Query().Get("cep")`. -/
def queryCep (r : Request) : GoString :=
  valuesGet (parseQuery r.URL.RawQuery) (str "cep")

/-- Go `weatherHandler`: the response written and the log of outbound calls.
The trace spans do not influence either. -/
def weatherHandler (env : Env) (r : Request) : Response TempBody × List Call :=
  let cep := queryCep r
  if len cep ≠ 8 then (.error (str "invalid zipcode") 422, [])
  else
    match getCityByCEP env cep with
    | (.error err, calls) => (.error err 404, calls)
    | (.ok city, calls) =>
      match getWeatherByCity env city with
      | (.error err, calls2) => (.error err 404, calls ++ calls2)
      | (.ok tempC, calls2) =>
        let t := convertTemperature tempC
        let response : TempBody := { temp_C := t.1, temp_F := t.2.1, temp_K := t.2.2 }
        (.json (jsonEncode [t.1, t.2.1, t.2.2] response), calls ++ calls2)

end ServB

/-! ## serv_A: the Gateway -/

namespace ServA

/-- Go `ServiceRequest`, as `json.Decoder.Decode` leaves it: the error of the
decoder is not read by `cepHandler`. -/
structure ServiceRequest where
  Cep : GoString
  deriving DecidableEq, Repr

/-- Go `ServiceBResponse`. -/
structure ServiceBResponse where
  City : GoString
  TempC : F64
  TempF : F64
  TempK : F64
  deriving DecidableEq, Repr

/-- Go `ViaCEPResponse`. -/
structure ViaCEPResponse where
  Localidade : GoString
  deriving DecidableEq, Repr

/-- Go `ServiceResponse`. -/
structure ServiceResponse where
  City : GoString
  TempC : F64
  TempF : F64
  TempK : F64
  deriving DecidableEq, Repr

/-- Body of the response of the Downstream Service as the Gateway receives
it: text that is not a JSON object, nothing, or a JSON object with those of
the fields `city`, `temp_C`, `temp_F`, `temp_K` that it has. -/
inductive WireBody where
  | text (s : GoString)
  | empty
  | object (city : Option GoString) (temp_C temp_F temp_K : Option F64)
  deriving DecidableEq, Repr

/-- Result of `http.DefaultClient.Do`. -/
inductive DoResult where
  | failed (err : GoString)
  | response (StatusCode : Nat) (Body : WireBody)
  deriving DecidableEq, Repr

/-- The collaborators of the Gateway: the geocode provider as a function of
the URL passed to `http.Get`, and the HTTP client as a function of the
request passed to `http.DefaultClient.Do`. -/
structure Env where
  viaCEP : GoString → GetResult GoString
  clientDo : Request → DoResult

/-- Decoding a body into a zero `ViaCEPResponse`: an absent `localidade`
leaves the empty string. -/
def decodeViaCEP : Decoded GoString → Except GoString ViaCEPResponse
  | .failure err => .error err
  | .value field => .ok { Localidade := field.getD [] }

/-- Decoding a body into a zero `ServiceBResponse`; the error of the decoder
is assigned and not read, so a body that does not decode leaves the zero
value. -/
def decodeServiceBResponse : WireBody → ServiceBResponse
  | .object city c f k =>
    { City := city.getD [], TempC := c.getD (F64.ofNat 0), TempF := f.getD (F64.ofNat 0),
      TempK := k.getD (F64.ofNat 0) }
  | _ => { City := [], TempC := F64.ofNat 0, TempF := F64.ofNat 0, TempK := F64.ofNat 0 }

/-- Go `getCityByCEP` of serv_A, with the log of its outbound calls. -/
def getCityByCEP (env : Env) (cep : GoString) : Except GoString GoString × List Call :=
  let url := viaCEPURL cep
  (match env.viaCEP url with
    | .failed err => .error err
    | .response StatusCode Body =>
      if StatusCode ≠ 200 then .error (str "can not find zipcode")
      else
        match decodeViaCEP Body with
        | .error err => .error err
        | .ok viaCEP =>
          if viaCEP.Localidade = [] then .error (str "can not find zipcode")
          else .ok viaCEP.Localidade,
    [Call.geocode url])

/-- The URL `cepHandler` formats for the Downstream Service. -/
def serviceBURL (cep : GoString) : GoString := str "http://service_b:4444/?cep=" ++ cep

/-- Go `http.NewRequestWithContext(ctx, "GET", url, nil)`: the URL is parsed,
and a parse error is returned with a nil request. -/
def newRequest (method url : GoString) : Except GoString Request :=
  match urlParse url with
  | .error err => .error err
  | .ok u => .ok { Method := method, URL := u }

/-- Go `cepHandler`: the response written and the log of outbound calls. The
response is `none` when the handler panics before writing one: the error of
`http.NewRequestWithContext` is not read and `req.Header` dereferences the
nil request. The trace spans do not influence the response. -/
def cepHandler (env : Env) (serviceReq : ServiceRequest) :
    Option (Response ServiceResponse) × List Call :=
  if len serviceReq.Cep ≠ 8 then (some (.error (str "invalid zipcode") 422), [])
  else
    match getCityByCEP env serviceReq.Cep with
    | (.error err, calls) => (some (.error err 404), calls)
    | (.ok city, calls) =>
      match newRequest (str "GET") (serviceBURL serviceReq.Cep) with
      | .error _ => (none, calls)
      | .ok req =>
        match env.clientDo req with
        | .failed err => (some (.error err 404), calls ++ [Call.serviceB req])
        | .response _ Body =>
          let serviceBRespose := decodeServiceBResponse Body
          let response : ServiceResponse :=
            { City := city, TempC := serviceBRespose.TempC, TempF := serviceBRespose.TempF,
              TempK := serviceBRespose.TempK }
          (some (.json (jsonEncode [response.TempC, response.TempF, response.TempK] response)),
            calls ++ [Call.serviceB req])

end ServA

/-! ## The hop from the Gateway to the Downstream Service -/

/-- Go `URL.RequestURI` for a URL with a path: the path, then `?` and the raw
query when there is one. -/
def requestURI (u : URL) : GoString :=
  if u.RawQuery = [] then u.Path else u.Path ++ [0x3F] ++ u.RawQuery

/-- The body of a response of the Downstream Service on the wire. The encoder
writes each finite float64 in the shortest decimal form that reads back as
the same float64, so the numbers are carried as they are. -/
def wireBody : Response ServB.TempBody → ServA.WireBody
  | .error msg _ => .text (msg ++ str "\n")
  | .json none => .empty
  | .json (some b) => .object none (some b.temp_C) (some b.temp_F) (some b.temp_K)

/-- The request the Downstream Service reads from the connection. The client
writes the request line `GET <request URI> HTTP/1.1`; the server cuts it at
the spaces, so a request URI with a space does not parse (`none`); otherwise
the server parses the request URI into path and raw query. -/
def receive (req : Request) : Option Request :=
  let ruri := requestURI req.URL
  if ruri.contains 0x20 then none
  else
    some
      { Method := req.Method,
        URL := { Scheme := [], Host := [], Path := (cut 0x3F ruri).1,
                 RawQuery := (cut 0x3F ruri).2, Fragment := [] } }

/-- The Downstream Service answering a request of the Gateway over a working
connection: a request line that does not parse is answered 400 without
reaching the handler; otherwise `weatherHandler` runs. -/
def serveB (env : ServB.Env) (req : Request) : ServA.DoResult × List Call :=
  match receive req with
  | none => (.response 400 (.text (str "400 Bad Request")), [])
  | some r =>
    let out := ServB.weatherHandler env r
    (.response out.1.status (wireBody out.1), out.2)

/-- The collaborators of the Gateway when the Downstream Service is behind its
HTTP client: `geo` is the geocode provider as the Gateway reaches it, `envB`
the collaborators of the Downstream Service. -/
def gatewayEnv (geo : GoString → GetResult GoString) (envB : ServB.Env) : ServA.Env :=
  { viaCEP := geo, clientDo := fun req => (serveB envB req).1 }

/-- The Gateway with the Downstream Service behind its HTTP client. -/
def endToEnd (geo : GoString → GetResult GoString) (envB : ServB.Env)
    (serviceReq : ServA.ServiceRequest) : Option (Response ServA.ServiceResponse) × List Call :=
  ServA.cepHandler (gatewayEnv geo envB) serviceReq

/-- A byte that a raw query value carries unchanged from `cepHandler` to
`weatherHandler`: not a control byte, a space, `#`, `%`, `&`, `+` or `;`. -/
def plainQueryByte (b : Fin 256) : Bool :=
  decide (0x20 < b.val ∧ b.val ≠ 0x7f ∧ b.val ≠ 0x23 ∧ b.val ≠ 0x25 ∧ b.val ≠ 0x26 ∧
    b.val ≠ 0x2B ∧ b.val ≠ 0x3B)

/-- The postal code the Downstream handler reads when the Gateway accepted
`cep`: `none` when the request is not built or not received. -/
def deliveredCep (cep : GoString) : Option GoString :=
  match ServA.newRequest (str "GET") (ServA.serviceBURL cep) with
  | .error _ => none
  | .ok req => (receive req).map ServB.queryCep

/-! ## Sample collaborators -/

/-- A geocode provider that resolves every postal code to `city`. -/
def sampleGeo (city : GoString) : GoString → GetResult GoString :=
  fun _ => .response 200 (.value (some city))

/-- Collaborators of the Downstream Service: a geocode provider that resolves
every postal code to `city`, and a weather provider that answers `weather`. -/
def sampleEnvB (city : GoString) (weather : GetResult F64) : ServB.Env :=
  { getenv := fun _ => str "key", viaCEP := sampleGeo city, weatherAPI := fun _ => weather }

/-- The request `GET /?<rawQuery>` as the Downstream Service reads it. -/
def sampleRequest (rawQuery : GoString) : Request :=
  { Method := str "GET",
    URL := { Scheme := [], Host := [], Path := str "/", RawQuery := rawQuery, Fragment := [] } }

/-- The float64 of the decimal constant `1e308`. -/
def f1e308 : F64 := F64.ofRatio false (10 ^ 154 * 10 ^ 154) 1

/-! ## Adequacy of the bounded recursions -/

/-- With fuel at least `m`, halving reaches zero: the result is the number of
binary digits of `m`. -/
theorem bitLenAux_spec (fuel m : Nat) (h : m ≤ fuel) :
    m < 2 ^ F64.bitLenAux fuel m ∧ (0 < m → 2 ^ (F64.bitLenAux fuel m - 1) ≤ m) := by
  induction fuel generalizing m with
  | zero =>
    have hm : m = 0 := by omega
    subst hm
    simp [F64.bitLenAux]
  | succ k ih =>
    by_cases hm : m = 0
    · subst hm
      simp [F64.bitLenAux]
    · have hk : m / 2 ≤ k := by omega
      obtain ⟨h1, h2⟩ := ih (m / 2) hk
      simp only [F64.bitLenAux, if_neg hm]
      constructor
      · rw [pow_succ]
        omega
      · intro _
        simp only [Nat.add_sub_cancel]
        by_cases h0 : m / 2 = 0
        · have : F64.bitLenAux k (m / 2) = 0 := by
            rw [h0]
            cases k <;> simp [F64.bitLenAux]
          rw [this]
          simp
          omega
        · have h3 := h2 (Nat.pos_of_ne_zero h0)
          have hpos : 0 < F64.bitLenAux k (m / 2) := by
            rcases Nat.eq_zero_or_pos (F64.bitLenAux k (m / 2)) with h4 | h4
            · rw [h4] at h1
              omega
            · exact h4
          obtain ⟨j, hj⟩ : ∃ j, F64.bitLenAux k (m / 2) = j + 1 := ⟨_, (Nat.succ_pred_eq_of_pos hpos).symm⟩
          rw [hj] at h3 ⊢
          simp only [Nat.add_sub_cancel] at h3
          rw [pow_succ]
          omega

/-- The number of binary digits: `2^(bitLen m - 1) ≤ m < 2^(bitLen m)`. -/
theorem bitLen_spec (m : Nat) :
    m < 2 ^ F64.bitLen m ∧ (0 < m → 2 ^ (F64.bitLen m - 1) ≤ m) :=
  bitLenAux_spec m m (Nat.le_refl m)

/-- What follows the separator is shorter than a non-empty string. -/
theorem cut_snd_length_lt (sep : Fin 256) (s : GoString) (h : s ≠ []) :
    (cut sep s).2.length < s.length := by
  induction s with
  | nil => exact absurd rfl h
  | cons c s ih =>
    by_cases hc : c = sep
    · simp [cut, hc]
    · by_cases hs : s = []
      · subst hs
        simp [cut, hc]
      · have := ih hs
        simp [cut, hc]
        omega

/-- Any fuel above the length of the query gives the same pairs: the fuel of
`parseQuery` is enough. -/
theorem parseQueryAux_fuel (f1 f2 : Nat) (query : GoString) (h1 : query.length < f1)
    (h2 : query.length < f2) : parseQueryAux f1 query = parseQueryAux f2 query := by
  induction f1 generalizing f2 query with
  | zero => omega
  | succ k ih =>
    cases f2 with
    | zero => omega
    | succ j =>
      by_cases hq : query = []
      · simp [parseQueryAux, hq]
      · have hlt := cut_snd_length_lt 0x26 query hq
        have e := ih j (cut 0x26 query).2 (by omega) (by omega)
        simp only [parseQueryAux, if_neg hq, e]

set_option maxRecDepth 100000 in
/-- The bit patterns of some float64 values of the model: the constant 1.8,
the integers 25, 77 and 298, the decimals 36.6, 97.88000000000001 and
-459.40000000000003, and 1e308. -/
theorem float64_known_bits :
    F64.bits (F64.ofRatio false 9 5) = 0x3FFCCCCCCCCCCCCD ∧
    F64.bits (F64.ofNat 25) = 0x4039000000000000 ∧
    F64.bits (F64.ofNat 77) = 0x4053400000000000 ∧
    F64.bits (F64.ofNat 298) = 0x4072A00000000000 ∧
    F64.bits (F64.ofRatio false 366 10) = 0x40424CCCCCCCCCCD ∧
    F64.bits (F64.ofRatio false 9788000000000001 100000000000000) = 0x40587851EB851EB9 ∧
    F64.bits (F64.ofRatio true 45940000000000003 100000000000000) = 0xC07CB66666666667 ∧
    F64.bits f1e308 = 0x7FE1CCF385EBC8A0 := by
  refine ⟨?_, ?_, ?_, ?_, ?_, ?_, ?_, ?_⟩
  · decide
  · decide
  · decide
  · decide
  · decide
  · decide
  · decide
  · decide

/-! ## Validation of the postal code -/

/-- C1: for every postal code whose length is not 8, `cepHandler` and
`weatherHandler` both answer 422 "invalid zipcode" and their call logs are
empty: no geocode lookup, no call to the Downstream Service, no weather
lookup. -/
theorem invalid_length_rejected (envA : ServA.Env) (envB : ServB.Env) (cep : GoString)
    (r : Request) (hr : ServB.queryCep r = cep) (h : len cep ≠ 8) :
    ServA.cepHandler envA { Cep := cep } = (some (.error (str "invalid zipcode") 422), []) ∧
    ServB.weatherHandler envB r = (.error (str "invalid zipcode") 422, []) := by
  constructor
  · simp [ServA.cepHandler, h]
  · simp [ServB.weatherHandler, hr, h]

/-- C1 at the postal code "123": both handlers answer 422 with no outbound
call, whatever the collaborators are. -/
theorem invalid_length_rejected_witness :
    ServA.cepHandler
        { viaCEP := fun _ => .response 200 (.value (some (str "Sao Paulo"))),
          clientDo := fun _ => .failed [] } { Cep := str "123" }
      = (some (.error (str "invalid zipcode") 422), []) ∧
    ServB.weatherHandler
        { getenv := fun _ => [], viaCEP := fun _ => .failed [], weatherAPI := fun _ => .failed [] }
        { Method := str "GET",
          URL := { Scheme := [], Host := [], Path := str "/", RawQuery := str "cep=123",
                   Fragment := [] } }
      = (.error (str "invalid zipcode") 422, []) :=
  invalid_length_rejected _ _ (str "123") _ (by decide) (by decide)

/-! ## The geocode client -/

/-- Success of `getCityByCEP` of serv_A in terms of the provider's answer. -/
theorem servA_getCityByCEP_ok_iff (env : ServA.Env) (cep city : GoString) :
    (ServA.getCityByCEP env cep).1 = .ok city ↔
      (env.viaCEP (viaCEPURL cep) = .response 200 (.value (some city)) ∧ city ≠ []) := by
  unfold ServA.getCityByCEP
  cases hA : env.viaCEP (viaCEPURL cep) with
  | failed err => simp [hA]
  | response code body =>
    by_cases hc : code = 200
    · cases body with
      | failure err => simp [hA, hc, ServA.decodeViaCEP]
      | value field =>
        cases field with
        | none => simp [hA, hc, ServA.decodeViaCEP]
        | some loc =>
          by_cases hl : loc = []
          · simp [hA, hc, ServA.decodeViaCEP, hl]
          · simp [hA, hc, ServA.decodeViaCEP, hl]
            intro h1
            exact h1 ▸ hl
    · simp [hA, hc]

/-- Success of `getCityByCEP` of serv_B in terms of the provider's answer. -/
theorem servB_getCityByCEP_ok_iff (env : ServB.Env) (cep city : GoString) :
    (ServB.getCityByCEP env cep).1 = .ok city ↔
      (env.viaCEP (viaCEPURL cep) = .response 200 (.value (some city)) ∧ city ≠ []) := by
  unfold ServB.getCityByCEP
  cases hA : env.viaCEP (viaCEPURL cep) with
  | failed err => simp [hA]
  | response code body =>
    by_cases hc : code = 200
    · cases body with
      | failure err => simp [hA, hc, ServB.decodeViaCEP]
      | value field =>
        cases field with
        | none => simp [hA, hc, ServB.decodeViaCEP]
        | some loc =>
          by_cases hl : loc = []
          · simp [hA, hc, ServB.decodeViaCEP, hl]
          · simp [hA, hc, ServB.decodeViaCEP, hl]
            intro h1
            exact h1 ▸ hl
    · simp [hA, hc]

/-- C6: in both services `getCityByCEP` succeeds with a city exactly when the
call completed with status 200, the body decoded and `localidade` is present
and non-empty, and the city is then that locality unchanged; it never
succeeds with an empty city. -/
theorem getCityByCEP_success_iff (envA : ServA.Env) (envB : ServB.Env) (cep city : GoString) :
    ((ServA.getCityByCEP envA cep).1 = .ok city ↔
      (envA.viaCEP (viaCEPURL cep) = .response 200 (.value (some city)) ∧ city ≠ [])) ∧
    ((ServB.getCityByCEP envB cep).1 = .ok city ↔
      (envB.viaCEP (viaCEPURL cep) = .response 200 (.value (some city)) ∧ city ≠ [])) ∧
    (ServA.getCityByCEP envA cep).1 ≠ .ok [] ∧
    (ServB.getCityByCEP envB cep).1 ≠ .ok [] :=
  ⟨servA_getCityByCEP_ok_iff envA cep city, servB_getCityByCEP_ok_iff envB cep city,
    fun h => ((servA_getCityByCEP_ok_iff envA cep []).mp h).2 rfl,
    fun h => ((servB_getCityByCEP_ok_iff envB cep []).mp h).2 rfl⟩

/-- The geocode provider has no match: it answers with a status other than
200, or with status 200 and an absent or empty locality. Then `getCityByCEP`
of serv_A fails with "can not find zipcode". -/
theorem servA_getCityByCEP_no_match (env : ServA.Env) (cep : GoString)
    (h : ∃ code body, env.viaCEP (viaCEPURL cep) = .response code body ∧
      (code ≠ 200 ∨ body = .value none ∨ body = .value (some []))) :
    ServA.getCityByCEP env cep =
      (.error (str "can not find zipcode"), [Call.geocode (viaCEPURL cep)]) := by
  obtain ⟨code, body, hres, hcase⟩ := h
  unfold ServA.getCityByCEP
  by_cases hc : code = 200
  · rcases hcase with h1 | h2 | h3
    · exact absurd hc h1
    · simp [hres, hc, h2, ServA.decodeViaCEP]
    · simp [hres, hc, h3, ServA.decodeViaCEP]
  · simp [hres, hc]

/-- The same for `getCityByCEP` of serv_B. -/
theorem servB_getCityByCEP_no_match (env : ServB.Env) (cep : GoString)
    (h : ∃ code body, env.viaCEP (viaCEPURL cep) = .response code body ∧
      (code ≠ 200 ∨ body = .value none ∨ body = .value (some []))) :
    ServB.getCityByCEP env cep =
      (.error (str "can not find zipcode"), [Call.geocode (viaCEPURL cep)]) := by
  obtain ⟨code, body, hres, hcase⟩ := h
  unfold ServB.getCityByCEP
  by_cases hc : code = 200
  · rcases hcase with h1 | h2 | h3
    · exact absurd hc h1
    · simp [hres, hc, h2, ServB.decodeViaCEP]
    · simp [hres, hc, h3, ServB.decodeViaCEP]
  · simp [hres, hc]

/-- C7: for every postal code of length 8 without a geocode match (status
other than 200, or status 200 and an absent or empty locality), both handlers
answer 404 "can not find zipcode" and their only outbound call is the geocode
lookup: the Gateway does not call the Downstream Service, the Downstream
Service does not call the weather provider. -/
theorem no_geocode_match_not_found (envA : ServA.Env) (envB : ServB.Env) (cep : GoString)
    (r : Request) (hr : ServB.queryCep r = cep) (h8 : len cep = 8)
    (hA : ∃ code body, envA.viaCEP (viaCEPURL cep) = .response code body ∧
      (code ≠ 200 ∨ body = .value none ∨ body = .value (some [])))
    (hB : ∃ code body, envB.viaCEP (viaCEPURL cep) = .response code body ∧
      (code ≠ 200 ∨ body = .value none ∨ body = .value (some []))) :
    ServA.cepHandler envA { Cep := cep } =
      (some (.error (str "can not find zipcode") 404), [Call.geocode (viaCEPURL cep)]) ∧
    ServB.weatherHandler envB r =
      (.error (str "can not find zipcode") 404, [Call.geocode (viaCEPURL cep)]) := by
  constructor
  · simp [ServA.cepHandler, h8, servA_getCityByCEP_no_match envA cep hA]
  · simp [ServB.weatherHandler, hr, h8, servB_getCityByCEP_no_match envB cep hB]

/-- C7 at the postal code "00000000": the provider answers the Gateway with
status 200 and no locality, and the Downstream Service with status 400. -/
theorem no_geocode_match_not_found_witness :
    ServA.cepHandler
        { viaCEP := fun _ => .response 200 (.value none), clientDo := fun _ => .failed [] }
        { Cep := str "00000000" }
      = (some (.error (str "can not find zipcode") 404),
          [Call.geocode (viaCEPURL (str "00000000"))]) ∧
    ServB.weatherHandler
        { getenv := fun _ => [], viaCEP := fun _ => .response 400 (.failure []),
          weatherAPI := fun _ => .failed [] }
        { Method := str "GET",
          URL := { Scheme := [], Host := [], Path := str "/", RawQuery := str "cep=00000000",
                   Fragment := [] } }
      = (.error (str "can not find zipcode") 404, [Call.geocode (viaCEPURL (str "00000000"))]) :=
  no_geocode_match_not_found _ _ (str "00000000") _ (by decide) (by decide)
    ⟨200, .value none, rfl, Or.inr (Or.inl rfl)⟩ ⟨400, .failure [], rfl, Or.inl (by decide)⟩

/-! ## The temperature converter -/

set_option maxRecDepth 100000 in
/-- C2: for every reading `c`, `convertTemperature c` is the triple
`(c, c*1.8+32, c+273)` of the specification, in float64 arithmetic; the first
component is the input unchanged; the Kelvin offset is the constant 273, which
is not the float64 of 273.15; the function is total (infinities and
not-a-number included). At -273, 0, 100 and 36.6 the triples are
(-273, -459.40000000000003, 0), (0, 32, 273), (100, 212, 373) and
(36.6, 97.88000000000001, 309.6). -/
theorem convertTemperature_exact :
    (∀ c : F64, ServB.convertTemperature c = ServB.convertTemperatureSpec c) ∧
    (∀ c : F64, (ServB.convertTemperature c).1 = c) ∧
    (∀ c : F64, (ServB.convertTemperature c).2.2 = F64.add c (F64.ofNat 273)) ∧
    F64.ofNat 273 ≠ F64.ofRatio false 27315 100 ∧
    ServB.convertTemperature (F64.ofRatio true 273 1) =
      (F64.ofRatio true 273 1, F64.ofRatio true 45940000000000003 100000000000000,
        F64.ofNat 0) ∧
    ServB.convertTemperature (F64.ofNat 0) = (F64.ofNat 0, F64.ofNat 32, F64.ofNat 273) ∧
    ServB.convertTemperature (F64.ofNat 100) = (F64.ofNat 100, F64.ofNat 212, F64.ofNat 373) ∧
    ServB.convertTemperature (F64.ofRatio false 366 10) =
      (F64.ofRatio false 366 10, F64.ofRatio false 9788000000000001 100000000000000,
        F64.ofRatio false 3096 10) := by
  refine ⟨fun c => ?_, fun _ => rfl, fun _ => rfl, ?_, ?_, ?_, ?_, ?_⟩
  · have h : F64.ofRatio false 18 10 = F64.ofRatio false 9 5 := by rfl
    unfold ServB.convertTemperature ServB.convertTemperatureSpec
    rw [h]
  · decide
  · decide
  · decide
  · decide
  · decide

/-! ## The weather client -/

/-- Success of `getWeatherByCity` in terms of the provider's answer: status
200 and a body that decodes; the reading is the field `current.temp_c`, or 0
when the field is absent. -/
theorem servB_getWeatherByCity_ok_iff (env : ServB.Env) (city : GoString) (t : F64) :
    (ServB.getWeatherByCity env city).1 = .ok t ↔
      ∃ field, env.weatherAPI (weatherURL (env.getenv (str "WEATHER_API_KEY")) city) =
        .response 200 (.value field) ∧ t = field.getD (F64.ofNat 0) := by
  unfold ServB.getWeatherByCity
  cases hW : env.weatherAPI (weatherURL (env.getenv (str "WEATHER_API_KEY")) city) with
  | failed err => simp [hW]
  | response code body =>
    by_cases hc : code = 200
    · cases body with
      | failure err => simp [hW, hc, ServB.decodeWeatherAPI]
      | value field =>
        simp [hW, hc, ServB.decodeWeatherAPI]
        exact eq_comm
    · simp [hW, hc]

/-- The one outbound call of `getWeatherByCity`. -/
theorem servB_getWeatherByCity_calls (env : ServB.Env) (city : GoString) :
    (ServB.getWeatherByCity env city).2 =
      [Call.weather (weatherURL (env.getenv (str "WEATHER_API_KEY")) city)] := rfl

/-- C5, refuted as stated: the weather provider answers with status 200 and a
JSON body without `current.temp_c`, and `getWeatherByCity` returns the
reading 0 with no error. -/
theorem getWeatherByCity_absent_field_counterexample :
    (ServB.getWeatherByCity
        { getenv := fun _ => str "key", viaCEP := fun _ => .failed [],
          weatherAPI := fun _ => .response 200 (.value none) } (str "Sao Paulo")).1
      = .ok (F64.ofNat 0) ∧
    ¬ ∀ (env : ServB.Env) (city : GoString),
        env.weatherAPI (weatherURL (env.getenv (str "WEATHER_API_KEY")) city) =
          .response 200 (.value none) →
        ∃ err, (ServB.getWeatherByCity env city).1 = .error err := by
  refine ⟨rfl, fun h => ?_⟩
  obtain ⟨err, herr⟩ :=
    h { getenv := fun _ => str "key", viaCEP := fun _ => .failed [],
        weatherAPI := fun _ => .response 200 (.value none) } (str "Sao Paulo") rfl
  exact absurd herr (by simp [ServB.getWeatherByCity, ServB.decodeWeatherAPI])

/-- C5, amended: `getWeatherByCity` returns a reading exactly when the status
is 200 and the body decodes, and the reading is then the value of
`current.temp_c`, or 0 when the body has no such field; a status other than
200 is the error "can not find weather data", and a failed call or a body
that does not decode is the error of the call or of the decoder. -/
theorem getWeatherByCity_result (env : ServB.Env) (city : GoString) :
    (∀ t, (ServB.getWeatherByCity env city).1 = .ok t ↔
      ∃ field, env.weatherAPI (weatherURL (env.getenv (str "WEATHER_API_KEY")) city) =
        .response 200 (.value field) ∧ t = field.getD (F64.ofNat 0)) ∧
    (∀ code body, env.weatherAPI (weatherURL (env.getenv (str "WEATHER_API_KEY")) city) =
        .response code body → code ≠ 200 →
      (ServB.getWeatherByCity env city).1 = .error (str "can not find weather data")) ∧
    (∀ err, env.weatherAPI (weatherURL (env.getenv (str "WEATHER_API_KEY")) city) =
        .failed err → (ServB.getWeatherByCity env city).1 = .error err) ∧
    (∀ err, env.weatherAPI (weatherURL (env.getenv (str "WEATHER_API_KEY")) city) =
        .response 200 (.failure err) → (ServB.getWeatherByCity env city).1 = .error err) := by
  refine ⟨fun t => servB_getWeatherByCity_ok_iff env city t, ?_, ?_, ?_⟩
  · intro code body h hc
    simp [ServB.getWeatherByCity, h, hc]
  · intro err h
    simp [ServB.getWeatherByCity, h]
  · intro err h
    simp [ServB.getWeatherByCity, h, ServB.decodeWeatherAPI]

/-- C5, amended, at a provider that reports 25 degrees: the reading is 25. -/
theorem getWeatherByCity_result_witness :
    (ServB.getWeatherByCity
        { getenv := fun _ => str "key", viaCEP := fun _ => .failed [],
          weatherAPI := fun _ => .response 200 (.value (some (F64.ofNat 25))) }
        (str "Sao Paulo")).1 = .ok (F64.ofNat 25) :=
  ((getWeatherByCity_result
      { getenv := fun _ => str "key", viaCEP := fun _ => .failed [],
        weatherAPI := fun _ => .response 200 (.value (some (F64.ofNat 25))) }
      (str "Sao Paulo")).1 (F64.ofNat 25)).mpr ⟨some (F64.ofNat 25), rfl, rfl⟩

/-! ## The Downstream handler -/

/-- The log of `getCityByCEP` of serv_B: one geocode call. -/
theorem servB_getCityByCEP_calls (env : ServB.Env) (cep : GoString) :
    (ServB.getCityByCEP env cep).2 = [Call.geocode (viaCEPURL cep)] := rfl

/-- The log of `getCityByCEP` of serv_A: one geocode call. -/
theorem servA_getCityByCEP_calls (env : ServA.Env) (cep : GoString) :
    (ServA.getCityByCEP env cep).2 = [Call.geocode (viaCEPURL cep)] := rfl

/-- A pair is determined by its components. -/
theorem pair_eq_of {α β : Type} (p : α × β) (a : α) (b : β) (h1 : p.1 = a) (h2 : p.2 = b) :
    p = (a, b) := by
  cases p
  simp_all

/-- The Downstream handler when the geocode lookup fails. -/
theorem servB_weatherHandler_geocode_error (env : ServB.Env) (r : Request) (err : GoString)
    (h8 : len (ServB.queryCep r) = 8)
    (hg : (ServB.getCityByCEP env (ServB.queryCep r)).1 = .error err) :
    ServB.weatherHandler env r =
      (.error err 404, [Call.geocode (viaCEPURL (ServB.queryCep r))]) := by
  have hp := pair_eq_of _ _ _ hg (servB_getCityByCEP_calls env (ServB.queryCep r))
  simp [ServB.weatherHandler, h8, hp]

/-- The Downstream handler when the geocode lookup succeeds and the weather
lookup fails. -/
theorem servB_weatherHandler_weather_error (env : ServB.Env) (r : Request)
    (city err : GoString) (h8 : len (ServB.queryCep r) = 8)
    (hg : (ServB.getCityByCEP env (ServB.queryCep r)).1 = .ok city)
    (hw : (ServB.getWeatherByCity env city).1 = .error err) :
    ServB.weatherHandler env r =
      (.error err 404,
        [Call.geocode (viaCEPURL (ServB.queryCep r)),
          Call.weather (weatherURL (env.getenv (str "WEATHER_API_KEY")) city)]) := by
  have hp := pair_eq_of _ _ _ hg (servB_getCityByCEP_calls env (ServB.queryCep r))
  have hq := pair_eq_of _ _ _ hw (servB_getWeatherByCity_calls env city)
  simp [ServB.weatherHandler, h8, hp, hq]

/-- The Downstream handler when both lookups succeed: status 200, and the
body is the converted reading when its three numbers are finite, nothing
otherwise. -/
theorem servB_weatherHandler_success (env : ServB.Env) (r : Request) (city : GoString)
    (c : F64) (h8 : len (ServB.queryCep r) = 8)
    (hg : (ServB.getCityByCEP env (ServB.queryCep r)).1 = .ok city)
    (hw : (ServB.getWeatherByCity env city).1 = .ok c) :
    ServB.weatherHandler env r =
      (.json
        (if (ServB.convertTemperature c).1.isFinite ∧ (ServB.convertTemperature c).2.1.isFinite ∧
            (ServB.convertTemperature c).2.2.isFinite then
          some { temp_C := (ServB.convertTemperature c).1,
                 temp_F := (ServB.convertTemperature c).2.1,
                 temp_K := (ServB.convertTemperature c).2.2 }
        else none),
        [Call.geocode (viaCEPURL (ServB.queryCep r)),
          Call.weather (weatherURL (env.getenv (str "WEATHER_API_KEY")) city)]) := by
  have hp := pair_eq_of _ _ _ hg (servB_getCityByCEP_calls env (ServB.queryCep r))
  have hq := pair_eq_of _ _ _ hw (servB_getWeatherByCity_calls env city)
  simp [ServB.weatherHandler, h8, hp, hq, jsonEncode, and_assoc]

set_option maxRecDepth 100000 in
/-- C9, refuted as stated: postal code "01001000", the geocode lookup resolves
a city, the weather provider reports 1e308 degrees. Both lookups succeed, the
Fahrenheit value overflows to +Inf, the encoder rejects it, and the response
is status 200 with no body, not the body of the converted reading. -/
theorem weatherHandler_overflow_counterexample :
    (ServB.getCityByCEP (sampleEnvB (str "Sao Paulo") (.response 200 (.value (some f1e308))))
      (str "01001000")).1 = .ok (str "Sao Paulo") ∧
    (ServB.getWeatherByCity (sampleEnvB (str "Sao Paulo") (.response 200 (.value (some f1e308))))
      (str "Sao Paulo")).1 = .ok f1e308 ∧
    ServB.convertTemperature f1e308 = (f1e308, F64.inf false, f1e308) ∧
    (ServB.weatherHandler (sampleEnvB (str "Sao Paulo") (.response 200 (.value (some f1e308))))
      (sampleRequest (str "cep=01001000"))).1 = .json none ∧
    (ServB.weatherHandler (sampleEnvB (str "Sao Paulo") (.response 200 (.value (some f1e308))))
      (sampleRequest (str "cep=01001000"))).1 ≠
      .json (some { temp_C := (ServB.convertTemperature f1e308).1,
                    temp_F := (ServB.convertTemperature f1e308).2.1,
                    temp_K := (ServB.convertTemperature f1e308).2.2 }) := by
  refine ⟨?_, ?_, ?_, ?_, ?_⟩
  · rfl
  · rfl
  · decide
  · decide
  · decide

/-- C9, amended: `weatherHandler` produces one response and a call log. The
response is 422 "invalid zipcode" exactly when the length of the postal code
is not 8, with no call; otherwise 404 with the error of the geocode client
when that lookup fails, after that one call; otherwise 404 with the error of
the weather client when the weather lookup, made with the resolved city,
fails; otherwise status 200, with the body `{temp_C, temp_F, temp_K}` of
`convertTemperature` of the reading when the three numbers are finite, and
with no body when one of them is not. The geocode client is called at most
once, and the weather client at most once and after the geocode client
succeeded. -/
theorem weatherHandler_state_machine (env : ServB.Env) (r : Request) :
    ((ServB.weatherHandler env r).1 = .error (str "invalid zipcode") 422 ↔
      len (ServB.queryCep r) ≠ 8) ∧
    (len (ServB.queryCep r) ≠ 8 → (ServB.weatherHandler env r).2 = []) ∧
    (len (ServB.queryCep r) = 8 → ∀ err,
      (ServB.getCityByCEP env (ServB.queryCep r)).1 = .error err →
      ServB.weatherHandler env r =
        (.error err 404, [Call.geocode (viaCEPURL (ServB.queryCep r))])) ∧
    (len (ServB.queryCep r) = 8 → ∀ city err,
      (ServB.getCityByCEP env (ServB.queryCep r)).1 = .ok city →
      (ServB.getWeatherByCity env city).1 = .error err →
      ServB.weatherHandler env r =
        (.error err 404,
          [Call.geocode (viaCEPURL (ServB.queryCep r)),
            Call.weather (weatherURL (env.getenv (str "WEATHER_API_KEY")) city)])) ∧
    (len (ServB.queryCep r) = 8 → ∀ city c,
      (ServB.getCityByCEP env (ServB.queryCep r)).1 = .ok city →
      (ServB.getWeatherByCity env city).1 = .ok c →
      ServB.weatherHandler env r =
        (.json
          (if (ServB.convertTemperature c).1.isFinite ∧
              (ServB.convertTemperature c).2.1.isFinite ∧
              (ServB.convertTemperature c).2.2.isFinite then
            some { temp_C := (ServB.convertTemperature c).1,
                   temp_F := (ServB.convertTemperature c).2.1,
                   temp_K := (ServB.convertTemperature c).2.2 }
          else none),
          [Call.geocode (viaCEPURL (ServB.queryCep r)),
            Call.weather (weatherURL (env.getenv (str "WEATHER_API_KEY")) city)])) := by
  refine ⟨?_, ?_, ?_, ?_, ?_⟩
  · constructor
    · intro h h8
      cases hg : (ServB.getCityByCEP env (ServB.queryCep r)).1 with
      | error err =>
        rw [servB_weatherHandler_geocode_error env r err h8 hg] at h
        simp at h
      | ok city =>
        cases hw : (ServB.getWeatherByCity env city).1 with
        | error err =>
          rw [servB_weatherHandler_weather_error env r city err h8 hg hw] at h
          simp at h
        | ok c =>
          rw [servB_weatherHandler_success env r city c h8 hg hw] at h
          simp at h
    · intro h
      simp [ServB.weatherHandler, h]
  · intro h
    simp [ServB.weatherHandler, h]
  · intro h8 err hg
    exact servB_weatherHandler_geocode_error env r err h8 hg
  · intro h8 city err hg hw
    exact servB_weatherHandler_weather_error env r city err h8 hg hw
  · intro h8 city c hg hw
    exact servB_weatherHandler_success env r city c h8 hg hw

set_option maxRecDepth 100000 in
/-- C9, amended, at postal code "01001000" with a reading of 25 degrees: the
response is 200 with the body (25, 77, 298), after one geocode call and one
weather call. -/
theorem weatherHandler_state_machine_witness :
    ServB.weatherHandler (sampleEnvB (str "Sao Paulo") (.response 200 (.value (some (F64.ofNat 25)))))
        (sampleRequest (str "cep=01001000")) =
      (.json (some { temp_C := F64.ofNat 25, temp_F := F64.ofNat 77, temp_K := F64.ofNat 298 }),
        [Call.geocode (viaCEPURL (str "01001000")),
          Call.weather (weatherURL (str "key") (str "Sao Paulo"))]) :=
  ((weatherHandler_state_machine
      (sampleEnvB (str "Sao Paulo") (.response 200 (.value (some (F64.ofNat 25)))))
      (sampleRequest (str "cep=01001000"))).2.2.2.2 (by decide) (str "Sao Paulo") (F64.ofNat 25)
      rfl rfl).trans (by decide)

/-! ## The postal code across the hop -/

/-- Cutting at a byte that does not occur. -/
theorem cut_of_not_mem (sep : Fin 256) (s : GoString) (h : sep ∉ s) : cut sep s = (s, []) := by
  induction s with
  | nil => rfl
  | cons c s ih =>
    have hc : c ≠ sep := fun e => h (by simp [e])
    have hs : sep ∉ s := fun e => h (by simp [e])
    simp [cut, hc, ih hs]

/-- Cutting past a beginning in which the byte does not occur. -/
theorem cut_append_of_not_mem (sep : Fin 256) (p s : GoString) (h : sep ∉ p) :
    cut sep (p ++ s) = (p ++ (cut sep s).1, (cut sep s).2) := by
  induction p with
  | nil => rfl
  | cons c p ih =>
    have hc : c ≠ sep := fun e => h (by simp [e])
    have hs : sep ∉ p := fun e => h (by simp [e])
    simp [cut, hc, ih hs]

/-- A plain query byte is none of the bytes the hop treats specially. -/
theorem plainQueryByte_ne (b : Fin 256) (h : plainQueryByte b = true) :
    b ≠ 0x23 ∧ b ≠ 0x25 ∧ b ≠ 0x26 ∧ b ≠ 0x2B ∧ b ≠ 0x3B ∧ b ≠ 0x20 ∧
      ¬ (b.val < 0x20 ∨ b.val = 0x7f) := by
  simp only [plainQueryByte, decide_eq_true_eq] at h
  refine ⟨?_, ?_, ?_, ?_, ?_, ?_, ?_⟩
  · rintro rfl
    revert h
    decide
  · rintro rfl
    revert h
    decide
  · rintro rfl
    revert h
    decide
  · rintro rfl
    revert h
    decide
  · rintro rfl
    revert h
    decide
  · rintro rfl
    revert h
    decide
  · omega

/-- A byte that is not plain does not occur in a plain string. -/
theorem not_mem_of_plain (s : GoString) (h : ∀ b ∈ s, plainQueryByte b = true) (x : Fin 256)
    (hx : plainQueryByte x = false) : x ∉ s := by
  intro hm
  have := h x hm
  simp [hx] at this

/-- A plain string has no control byte. -/
theorem stringContainsCTLByte_plain (s : GoString) (h : ∀ b ∈ s, plainQueryByte b = true) :
    stringContainsCTLByte s = false := by
  simp only [stringContainsCTLByte, List.any_eq_false]
  intro b hb
  simpa using (plainQueryByte_ne b (h b hb)).2.2.2.2.2.2

/-- Unescaping leaves a plain string as it is. -/
theorem unescape_plain (query : Bool) (s : GoString) (h : ∀ b ∈ s, plainQueryByte b = true) :
    unescape query s = some s := by
  induction s with
  | nil => rfl
  | cons c s ih =>
    have hc := plainQueryByte_ne c (h c (by simp))
    have hs : ∀ b ∈ s, plainQueryByte b = true := fun b hb => h b (by simp [hb])
    have ih1 := ih hs
    cases s with
    | nil => simp [unescape, hc.2.1, hc.2.2.2.1]
    | cons h1 t =>
      cases t with
      | nil =>
        rw [unescape]
        · simp [hc.2.1, hc.2.2.2.1, ih1]
        · intro a b t ht
          simp at ht
      | cons h2 t =>
        rw [unescape]
        simp [hc.2.1, hc.2.2.2.1, ih1]

/-- The URL of the Downstream Service parses, for a plain postal code, into
host `service_b:4444`, path `/` and raw query `cep=<cep>`. -/
theorem urlParse_serviceBURL (cep : GoString) (h : ∀ b ∈ cep, plainQueryByte b = true) :
    urlParse (ServA.serviceBURL cep) =
      .ok { Scheme := str "http", Host := str "service_b:4444", Path := str "/",
            RawQuery := str "cep=" ++ cep, Fragment := [] } := by
  have hcut : cut 0x23 (ServA.serviceBURL cep) = (ServA.serviceBURL cep, []) := by
    unfold ServA.serviceBURL
    rw [cut_append_of_not_mem 0x23 _ cep (by decide),
      cut_of_not_mem 0x23 cep (not_mem_of_plain cep h 0x23 (by decide))]
  have hctl : stringContainsCTLByte (ServA.serviceBURL cep) = false := by
    unfold ServA.serviceBURL stringContainsCTLByte
    rw [List.any_append]
    have h1 := stringContainsCTLByte_plain cep h
    unfold stringContainsCTLByte at h1
    rw [h1]
    decide
  have hscheme : getScheme (ServA.serviceBURL cep) =
      some (str "http", str "//service_b:4444/?cep=" ++ cep) := rfl
  have hq : cut 0x3F (str "//service_b:4444/?cep=" ++ cep) =
      (str "//service_b:4444/", str "cep=" ++ cep) := rfl
  have hhost : (cut 0x2F (List.drop 2 (str "//service_b:4444/"))).1 = str "service_b:4444" := by
    decide
  have hpath : List.drop (2 + (str "service_b:4444").length) (str "//service_b:4444/") =
      str "/" := by decide
  have hfrag : unescape false [] = some [] := rfl
  unfold urlParse
  simp only [hcut, hctl, hscheme, hq, hhost, hpath, hfrag]
  rfl

/-- An empty query has no pairs. -/
theorem parseQueryAux_nil (fuel : Nat) : parseQueryAux fuel [] = [] := by
  cases fuel <;> simp [parseQueryAux]

/-- A byte that does not occur is not contained. -/
theorem contains_eq_false_of_not_mem (s : GoString) (x : Fin 256) (h : x ∉ s) :
    s.contains x = false := by
  simpa using h

/-- The raw query `cep=<cep>` of a plain postal code has the one pair
`(cep, <cep>)`. -/
theorem parseQuery_cep (cep : GoString) (h : ∀ b ∈ cep, plainQueryByte b = true) :
    parseQuery (str "cep=" ++ cep) = [(str "cep", cep)] := by
  have hne : str "cep=" ++ cep ≠ [] := by
    intro e
    have := congrArg List.length e
    simp [str, utf8] at this
  have hamp : (0x26 : Fin 256) ∉ str "cep=" ++ cep := by
    rw [List.mem_append]
    rintro (h1 | h1)
    · revert h1
      decide
    · exact not_mem_of_plain cep h 0x26 (by decide) h1
  have hsemi : (0x3B : Fin 256) ∉ str "cep=" ++ cep := by
    rw [List.mem_append]
    rintro (h1 | h1)
    · revert h1
      decide
    · exact not_mem_of_plain cep h 0x3B (by decide) h1
  have hcut : cut 0x26 (str "cep=" ++ cep) = (str "cep=" ++ cep, []) := cut_of_not_mem _ _ hamp
  have hkv : cut 0x3D (str "cep=" ++ cep) = (str "cep", cep) := rfl
  have hk : unescape true (str "cep") = some (str "cep") := by decide
  have hv : unescape true cep = some cep := unescape_plain true cep h
  unfold parseQuery
  rw [parseQueryAux]
  simp only [hcut, hkv, hk, hv, contains_eq_false_of_not_mem _ _ hsemi, parseQueryAux_nil]
  simp [hne]

/-- The postal code travels unchanged from the request the Gateway builds to
the value the Downstream handler reads, when its bytes are plain. -/
theorem hop_preserves_plain_cep (cep : GoString) (h : ∀ b ∈ cep, plainQueryByte b = true) :
    ∃ req r, ServA.newRequest (str "GET") (ServA.serviceBURL cep) = .ok req ∧
      receive req = some r ∧ ServB.queryCep r = cep := by
  have hsp : (0x20 : Fin 256) ∉ str "/" ++ [0x3F] ++ (str "cep=" ++ cep) := by
    rw [List.mem_append]
    rintro (h1 | h1)
    · revert h1
      decide
    · rw [List.mem_append] at h1
      rcases h1 with h2 | h2
      · revert h2
        decide
      · exact not_mem_of_plain cep h 0x20 (by decide) h2
  have hne : str "cep=" ++ cep ≠ [] := by
    intro e
    have := congrArg List.length e
    simp [str, utf8] at this
  refine ⟨{ Method := str "GET",
            URL := { Scheme := str "http", Host := str "service_b:4444", Path := str "/",
                     RawQuery := str "cep=" ++ cep, Fragment := [] } },
          { Method := str "GET",
            URL := { Scheme := [], Host := [], Path := str "/", RawQuery := str "cep=" ++ cep,
                     Fragment := [] } }, ?_, ?_, ?_⟩
  · simp [ServA.newRequest, urlParse_serviceBURL cep h]
  · have hq : cut 0x3F (str "/" ++ [0x3F] ++ (str "cep=" ++ cep)) =
        (str "/", str "cep=" ++ cep) := rfl
    simp only [receive, requestURI, if_neg hne, contains_eq_false_of_not_mem _ _ hsp, hq]
    simp
  · simp [ServB.queryCep, parseQuery_cep cep h, valuesGet]

set_option maxRecDepth 100000 in
/-- Each byte excluded from the plain ones changes a postal code of length 8
on its way: `#` cuts it, `&` ends the value, `;` drops the pair, `+` becomes
a space, `%34` becomes `4`, a space breaks the request line, and with a
control byte the request is not built. -/
theorem deliveredCep_special_bytes :
    deliveredCep (str "1234567#") = some (str "1234567") ∧
    deliveredCep (str "1234&678") = some (str "1234") ∧
    deliveredCep (str "1234;678") = some [] ∧
    deliveredCep (str "1234+678") = some (str "1234 678") ∧
    deliveredCep (str "12%34678") = some (str "124678") ∧
    deliveredCep (str "1234 678") = none ∧
    deliveredCep (str "1234\n678") = none ∧
    deliveredCep (str "01001000") = some (str "01001000") := by
  refine ⟨?_, ?_, ?_, ?_, ?_, ?_, ?_, ?_⟩
  · decide
  · decide
  · decide
  · decide
  · decide
  · decide
  · decide
  · decide

/-- C8, refuted as stated: the postal code "1234567#" has length 8, the
request for the Downstream Service is built and received, and the value the
Downstream handler reads is "1234567", of length 7: the `#` starts the
fragment of the URL, which is not sent. -/
theorem cep_with_hash_counterexample :
    len (str "1234567#") = 8 ∧
    ∃ req r, ServA.newRequest (str "GET") (ServA.serviceBURL (str "1234567#")) = .ok req ∧
      receive req = some r ∧ ServB.queryCep r = str "1234567" ∧
      ServB.queryCep r ≠ str "1234567#" ∧ len (ServB.queryCep r) = 7 :=
  ⟨by decide,
    { Method := str "GET",
      URL := { Scheme := str "http", Host := str "service_b:4444", Path := str "/",
               RawQuery := str "cep=1234567", Fragment := [] } },
    sampleRequest (str "cep=1234567"), by rfl, by decide, by decide, by decide, by decide⟩

/-! ## The Gateway handler -/

set_option maxRecDepth 100000 in
/-- C4, on the code: postal code "01001000", the Gateway resolves the city,
the weather provider answers the Downstream Service with status 500, and the
Downstream Service answers the Gateway 404 "can not find weather data". The
Gateway does not read the status of that answer nor the error of the
decoder: it answers 200 with the city and three zero temperatures. -/
theorem cepHandler_ignores_downstream_failure :
    (serveB (sampleEnvB (str "Sao Paulo") (.response 500 (.failure [])))
        { Method := str "GET",
          URL := { Scheme := str "http", Host := str "service_b:4444", Path := str "/",
                   RawQuery := str "cep=01001000", Fragment := [] } }).1 =
      .response 404 (.text (str "can not find weather data\n")) ∧
    endToEnd (sampleGeo (str "São Paulo"))
        (sampleEnvB (str "Sao Paulo") (.response 500 (.failure []))) { Cep := str "01001000" } =
      (some (.json (some { City := str "São Paulo", TempC := F64.ofNat 0, TempF := F64.ofNat 0,
                           TempK := F64.ofNat 0 })),
        [Call.geocode (viaCEPURL (str "01001000")),
          Call.serviceB
            { Method := str "GET",
              URL := { Scheme := str "http", Host := str "service_b:4444", Path := str "/",
                       RawQuery := str "cep=01001000", Fragment := [] } }]) := by
  constructor
  · decide
  · decide

/-! ## End to end -/

/-- The Gateway behind a request that was built and answered: status 200 with
the locally resolved city and the decoded temperatures. -/
theorem servA_cepHandler_answered (env : ServA.Env) (cep city : GoString) (req : Request)
    (code : Nat) (body : ServA.WireBody) (h8 : len cep = 8)
    (hg : (ServA.getCityByCEP env cep).1 = .ok city)
    (hreq : ServA.newRequest (str "GET") (ServA.serviceBURL cep) = .ok req)
    (hdo : env.clientDo req = .response code body) :
    (ServA.cepHandler env { Cep := cep }).1 =
      some (.json (jsonEncode
        [(ServA.decodeServiceBResponse body).TempC, (ServA.decodeServiceBResponse body).TempF,
          (ServA.decodeServiceBResponse body).TempK]
        { City := city, TempC := (ServA.decodeServiceBResponse body).TempC,
          TempF := (ServA.decodeServiceBResponse body).TempF,
          TempK := (ServA.decodeServiceBResponse body).TempK })) := by
  have hp := pair_eq_of _ _ _ hg (servA_getCityByCEP_calls env cep)
  simp [ServA.cepHandler, h8, hp, hreq, hdo]

/-- The answer of the Downstream Service to a request it received. -/
theorem serveB_received (envB : ServB.Env) (req r : Request) (h : receive req = some r) :
    (serveB envB req).1 =
      .response (ServB.weatherHandler envB r).1.status (wireBody (ServB.weatherHandler envB r).1) := by
  simp [serveB, h]

/-- C3, amended: for every postal code of length 8 and every reading `c`
whose converted values are finite: when the geocode lookup of the Gateway
resolves the city `X`, the request to the Downstream Service is built and
received, the Downstream handler reads from it a postal code of length 8
(the postal code of the Gateway when that has no control byte, space, `#`,
`%`, `&`, `+` or `;`) for which its geocode lookup resolves some city `Y`,
and the weather provider reports `c` for `Y`, the Gateway answers 200 with
the body `{city: X, temp_C: c, temp_F: c*1.8+32, temp_K: c+273}`. -/
theorem endToEnd_success (geo : GoString → GetResult GoString) (envB : ServB.Env)
    (cep X Y : GoString) (c : F64) (req r : Request) (h8 : len cep = 8)
    (hX : (ServA.getCityByCEP (gatewayEnv geo envB) cep).1 = .ok X)
    (hreq : ServA.newRequest (str "GET") (ServA.serviceBURL cep) = .ok req)
    (hrecv : receive req = some r)
    (h8r : len (ServB.queryCep r) = 8)
    (hY : (ServB.getCityByCEP envB (ServB.queryCep r)).1 = .ok Y)
    (hc : (ServB.getWeatherByCity envB Y).1 = .ok c)
    (hfin : c.isFinite = true ∧
      (F64.add (F64.mul c (F64.ofRatio false 9 5)) (F64.ofNat 32)).isFinite = true ∧
      (F64.add c (F64.ofNat 273)).isFinite = true) :
    (endToEnd geo envB { Cep := cep }).1 =
      some (.json (some
        { City := X, TempC := c,
          TempF := F64.add (F64.mul c (F64.ofRatio false 9 5)) (F64.ofNat 32),
          TempK := F64.add c (F64.ofNat 273) })) := by
  have hB := servB_weatherHandler_success envB r Y c h8r hY hc
  have hconv : ServB.convertTemperature c =
      (c, F64.add (F64.mul c (F64.ofRatio false 9 5)) (F64.ofNat 32),
        F64.add c (F64.ofNat 273)) := rfl
  rw [hconv] at hB
  simp only [hfin, and_self, if_true] at hB
  have hdo : (gatewayEnv geo envB).clientDo req =
      .response 200 (.object none (some c)
        (some (F64.add (F64.mul c (F64.ofRatio false 9 5)) (F64.ofNat 32)))
        (some (F64.add c (F64.ofNat 273)))) := by
    show (serveB envB req).1 = _
    rw [serveB_received envB req r hrecv, hB]
    rfl
  unfold endToEnd
  rw [servA_cepHandler_answered (gatewayEnv geo envB) cep X req _ _ h8 hX hreq hdo]
  simp [ServA.decodeServiceBResponse, jsonEncode, hfin]

set_option maxRecDepth 100000 in
/-- C3, amended, at scenario A: postal code "01001000", the Gateway resolves
"São Paulo", the weather provider reports 25.0 degrees, and the body is
`{"city":"São Paulo","temp_C":25.0,"temp_F":77.0,"temp_K":298.0}`. -/
theorem endToEnd_success_witness :
    (endToEnd (sampleGeo (str "São Paulo"))
        (sampleEnvB (str "Sao Paulo") (.response 200 (.value (some (F64.ofNat 25)))))
        { Cep := str "01001000" }).1 =
      some (.json (some { City := str "São Paulo", TempC := F64.ofNat 25, TempF := F64.ofNat 77,
                          TempK := F64.ofNat 298 })) :=
  (endToEnd_success (sampleGeo (str "São Paulo"))
      (sampleEnvB (str "Sao Paulo") (.response 200 (.value (some (F64.ofNat 25)))))
      (str "01001000") (str "São Paulo") (str "Sao Paulo") (F64.ofNat 25)
      { Method := str "GET",
        URL := { Scheme := str "http", Host := str "service_b:4444", Path := str "/",
                 RawQuery := str "cep=01001000", Fragment := [] } }
      (sampleRequest (str "cep=01001000")) (by decide) rfl rfl (by decide) (by decide) rfl rfl
      (by decide)).trans (by decide)

set_option maxRecDepth 100000 in
/-- C3, refuted as stated. First, postal code "1234567#": both geocode
lookups resolve a city and the weather provider reports 25 degrees, yet the
Downstream Service reads the postal code "1234567", answers 422, and the
Gateway answers 200 with three zero temperatures. Second, postal code
"01001000" and a reading of 1e308 degrees: the Fahrenheit value overflows,
the Downstream Service answers with no body, and the Gateway again answers
with three zero temperatures. -/
theorem endToEnd_counterexample :
    (len (str "1234567#") = 8 ∧
      (ServA.getCityByCEP
        (gatewayEnv (sampleGeo (str "São Paulo"))
          (sampleEnvB (str "Sao Paulo") (.response 200 (.value (some (F64.ofNat 25))))))
        (str "1234567#")).1 = .ok (str "São Paulo") ∧
      (ServB.getCityByCEP
        (sampleEnvB (str "Sao Paulo") (.response 200 (.value (some (F64.ofNat 25)))))
        (str "1234567#")).1 = .ok (str "Sao Paulo") ∧
      (ServB.getWeatherByCity
        (sampleEnvB (str "Sao Paulo") (.response 200 (.value (some (F64.ofNat 25)))))
        (str "Sao Paulo")).1 = .ok (F64.ofNat 25) ∧
      (endToEnd (sampleGeo (str "São Paulo"))
        (sampleEnvB (str "Sao Paulo") (.response 200 (.value (some (F64.ofNat 25)))))
        { Cep := str "1234567#" }).1 =
        some (.json (some { City := str "São Paulo", TempC := F64.ofNat 0,
                            TempF := F64.ofNat 0, TempK := F64.ofNat 0 }))) ∧
    (len (str "01001000") = 8 ∧
      (ServA.getCityByCEP
        (gatewayEnv (sampleGeo (str "São Paulo"))
          (sampleEnvB (str "Sao Paulo") (.response 200 (.value (some f1e308)))))
        (str "01001000")).1 = .ok (str "São Paulo") ∧
      (ServB.getCityByCEP (sampleEnvB (str "Sao Paulo") (.response 200 (.value (some f1e308))))
        (str "01001000")).1 = .ok (str "Sao Paulo") ∧
      (ServB.getWeatherByCity (sampleEnvB (str "Sao Paulo") (.response 200 (.value (some f1e308))))
        (str "Sao Paulo")).1 = .ok f1e308 ∧
      (endToEnd (sampleGeo (str "São Paulo"))
        (sampleEnvB (str "Sao Paulo") (.response 200 (.value (some f1e308))))
        { Cep := str "01001000" }).1 =
        some (.json (some { City := str "São Paulo", TempC := F64.ofNat 0,
                            TempF := F64.ofNat 0, TempK := F64.ofNat 0 }))) := by
  refine ⟨⟨?_, ?_, ?_, ?_, ?_⟩, ⟨?_, ?_, ?_, ?_, ?_⟩⟩
  · decide
  · rfl
  · rfl
  · rfl
  · decide
  · decide
  · rfl
  · rfl
  · rfl
  · decide

/-! ## Which postal codes cross the hop unchanged -/

/-- Unescaping a string that does not start with `%`. -/
theorem unescape_cons_ne (query : Bool) (c : Fin 256) (s : GoString) (hc : c ≠ 0x25) :
    unescape query (c :: s) =
      if (c = 0x2B && query) = true then
        (unescape query s).map (fun r => (0x20 : Fin 256) :: r)
      else (unescape query s).map (fun r => c :: r) := by
  cases s with
  | nil => simp [unescape, hc]
  | cons h1 s2 =>
    cases s2 with
    | nil =>
      have e : unescape query [c, h1] =
          if c = 0x25 then none
          else if (c = 0x2B && query) = true then
            (unescape query [h1]).map (fun r => (0x20 : Fin 256) :: r)
          else (unescape query [h1]).map (fun r => c :: r) := rfl
      rw [e, if_neg hc]
    | cons h2 t2 =>
      have e : unescape query (c :: h1 :: h2 :: t2) =
          if c = 0x25 then
            (if (ishex h1 && ishex h2) = true then
              (unescape query t2).map (fun r => byte (16 * unhex h1 + unhex h2) :: r)
            else none)
          else if (c = 0x2B && query) = true then
            (unescape query (h1 :: h2 :: t2)).map (fun r => (0x20 : Fin 256) :: r)
          else (unescape query (h1 :: h2 :: t2)).map (fun r => c :: r) := rfl
      rw [e, if_neg hc]

/-- Unescaping a string that starts with `%`. -/
theorem unescape_cons_percent (query : Bool) (s t : GoString)
    (h : unescape query ((0x25 : Fin 256) :: s) = some t) :
    ∃ h1 h2 s2 r, s = h1 :: h2 :: s2 ∧ unescape query s2 = some r ∧
      t = byte (16 * unhex h1 + unhex h2) :: r := by
  cases s with
  | nil => simp [unescape] at h
  | cons h1 s2 =>
    cases s2 with
    | nil => simp [unescape] at h
    | cons h2 t2 =>
      rw [unescape] at h
      by_cases hx : (ishex h1 && ishex h2) = true
      · simp only [hx, if_true, Option.map_eq_some'] at h
        obtain ⟨r, hr, ht⟩ := h
        exact ⟨h1, h2, t2, r, rfl, hr, ht.symm⟩
      · simp [hx] at h

/-- Unescaping does not lengthen a string, by induction on a bound of its
length. -/
theorem unescape_length_le_aux (query : Bool) (n : Nat) :
    ∀ s t : GoString, s.length ≤ n → unescape query s = some t → t.length ≤ s.length := by
  induction n with
  | zero =>
    intro s t hn h
    have hs : s = [] := List.eq_nil_of_length_eq_zero (by omega)
    subst hs
    simp [unescape] at h
    subst h
    simp
  | succ n ih =>
    intro s t hn h
    cases s with
    | nil =>
      simp [unescape] at h
      subst h
      simp
    | cons c s =>
      by_cases hc : c = 0x25
      · subst hc
        obtain ⟨h1, h2, s2, r, hs, hr, ht⟩ := unescape_cons_percent query s t h
        subst hs
        have := ih s2 r (by simp at hn; omega) hr
        subst ht
        simp
        omega
      · rw [unescape_cons_ne query c s hc] at h
        have hmap : ∃ y r, unescape query s = some r ∧ t = y :: r := by
          by_cases hp : (c = 0x2B && query) = true
          · rw [if_pos hp, Option.map_eq_some'] at h
            obtain ⟨r, hr, ht⟩ := h
            exact ⟨_, r, hr, ht.symm⟩
          · rw [if_neg hp, Option.map_eq_some'] at h
            obtain ⟨r, hr, ht⟩ := h
            exact ⟨_, r, hr, ht.symm⟩
        obtain ⟨y, r, hr, ht⟩ := hmap
        have := ih s r (by simp at hn; omega) hr
        subst ht
        simp
        omega

/-- Unescaping does not lengthen a string. -/
theorem unescape_length_le (query : Bool) (s t : GoString) (h : unescape query s = some t) :
    t.length ≤ s.length :=
  unescape_length_le_aux query s.length s t (Nat.le_refl _) h

/-- The two parts of a cut are together no longer than the string. -/
theorem cut_lengths (sep : Fin 256) (s : GoString) :
    (cut sep s).1.length + (cut sep s).2.length ≤ s.length := by
  induction s with
  | nil => simp [cut]
  | cons c s ih =>
    by_cases hc : c = sep
    · simp [cut, hc]
    · simp [cut, hc]
      omega

/-- When the part before the separator is as long as the string, the
separator does not occur and that part is the string. -/
theorem cut_fst_eq_of_length (sep : Fin 256) (s : GoString)
    (h : s.length ≤ (cut sep s).1.length) : sep ∉ s ∧ (cut sep s).1 = s := by
  induction s with
  | nil => simp [cut]
  | cons c s ih =>
    by_cases hc : c = sep
    · simp [cut, hc] at h
    · simp [cut, hc] at h
      obtain ⟨h1, h2⟩ := ih h
      refine ⟨?_, ?_⟩
      · simp [h1]
        exact fun e => hc e.symm
      · simp [cut, hc, h2]

/-- A string that query unescaping leaves as it is has no `%` and no `+`. -/
theorem unescape_fixed (s : GoString) (h : unescape true s = some s) :
    (0x25 : Fin 256) ∉ s ∧ (0x2B : Fin 256) ∉ s := by
  induction s with
  | nil => simp
  | cons c s ih =>
    by_cases hc : c = 0x25
    · subst hc
      obtain ⟨h1, h2, s2, r, hs, hr, ht⟩ := unescape_cons_percent true s _ h
      have hlen := unescape_length_le true s2 r hr
      have : (s).length = r.length := by
        have := congrArg List.length ht
        simp at this
        omega
      rw [hs] at this
      simp at this
      omega
    · rw [unescape_cons_ne true c s hc] at h
      by_cases hp : c = 0x2B
      · subst hp
        simp only [Bool.and_true, decide_True, if_true, Option.map_eq_some'] at h
        obtain ⟨r, _, ht⟩ := h
        have := (List.cons.inj ht).1
        exact absurd this (by decide)
      · have hp2 : ¬ ((c = 0x2B && true) = true) := by simpa using hp
        rw [if_neg hp2, Option.map_eq_some'] at h
        obtain ⟨r, hr, ht⟩ := h
        have hrs : r = s := (List.cons.inj ht).2
        rw [hrs] at hr
        obtain ⟨i1, i2⟩ := ih hr
        refine ⟨?_, ?_⟩
        · simp [i1]
          exact fun e => hc e.symm
        · simp [i2]
          exact fun e => hp e.symm

/-- Every pair of a query is no longer than the query. -/
theorem parseQueryAux_pair_length (fuel : Nat) :
    ∀ (query k v : GoString), (k, v) ∈ parseQueryAux fuel query →
      k.length + v.length ≤ query.length := by
  induction fuel with
  | zero =>
    intro query k v h
    simp [parseQueryAux] at h
  | succ n ih =>
    intro query k v h
    have hc := cut_lengths 0x26 query
    have hrest : (k, v) ∈ parseQueryAux n (cut 0x26 query).2 → k.length + v.length ≤ query.length := by
      intro h1
      have := ih _ k v h1
      omega
    rw [parseQueryAux] at h
    by_cases hq : query = []
    · simp [hq] at h
    · rw [if_neg hq] at h
      by_cases hs : (cut 0x26 query).1.contains 0x3B = true
      · simp only [hs, if_true] at h
        exact hrest h
      · simp only [hs] at h
        by_cases hk : (cut 0x26 query).1 = []
        · simp only [hk, if_true] at h
          exact hrest (by simpa [hk] using h)
        · simp only [hk, if_false] at h
          generalize hu1 : unescape true (cut 0x3D (cut 0x26 query).1).1 = u1 at h
          generalize hu2 : unescape true (cut 0x3D (cut 0x26 query).1).2 = u2 at h
          cases u1 with
          | none => exact hrest h
          | some k1 =>
            cases u2 with
            | none => exact hrest h
            | some v1 =>
              change (k, v) ∈ (k1, v1) :: parseQueryAux n (cut 0x26 query).2 at h
              rw [List.mem_cons] at h
              rcases h with h | h
              · have hk1 := unescape_length_le true _ _ hu1
                have hv1 := unescape_length_le true _ _ hu2
                have hc2 := cut_lengths 0x3D (cut 0x26 query).1
                have e1 : k = k1 := (Prod.mk.inj h).1
                have e2 : v = v1 := (Prod.mk.inj h).2
                subst e1 e2
                omega
              · exact hrest h

/-- A non-empty value comes from a pair of the query. -/
theorem valuesGet_mem (vs : List (GoString × GoString)) (key v : GoString)
    (h : valuesGet vs key = v) (hv : v ≠ []) : (key, v) ∈ vs := by
  unfold valuesGet at h
  cases hf : vs.find? (fun kv => kv.1 = key) with
  | none =>
    rw [hf] at h
    exact absurd h.symm hv
  | some kv =>
    rw [hf] at h
    have hm := List.mem_of_find?_eq_some hf
    have hk := List.find?_some hf
    simp at hk
    have : kv = (key, v) := by
      cases kv
      simp_all
    rw [← this]
    exact hm

/-- The URL of the Downstream Service parsed for any postal code: the part of
the postal code before its first `#` becomes the raw query value, the rest
the fragment. -/
theorem urlParse_serviceBURL_general (cep : GoString) :
    urlParse (ServA.serviceBURL cep) =
      if stringContainsCTLByte (str "http://service_b:4444/?cep=" ++ (cut 0x23 cep).1) = true then
        .error (str "net/url: invalid control character in URL")
      else
        match unescape false (cut 0x23 cep).2 with
        | none => .error (str "invalid URL escape")
        | some f =>
          .ok { Scheme := str "http", Host := str "service_b:4444", Path := str "/",
                RawQuery := str "cep=" ++ (cut 0x23 cep).1, Fragment := f } := by
  have hcut : cut 0x23 (ServA.serviceBURL cep) =
      (str "http://service_b:4444/?cep=" ++ (cut 0x23 cep).1, (cut 0x23 cep).2) := by
    unfold ServA.serviceBURL
    rw [cut_append_of_not_mem 0x23 _ cep (by decide)]
  have hscheme : getScheme (str "http://service_b:4444/?cep=" ++ (cut 0x23 cep).1) =
      some (str "http", str "//service_b:4444/?cep=" ++ (cut 0x23 cep).1) := rfl
  have hq : cut 0x3F (str "//service_b:4444/?cep=" ++ (cut 0x23 cep).1) =
      (str "//service_b:4444/", str "cep=" ++ (cut 0x23 cep).1) := rfl
  have hhost : (cut 0x2F (List.drop 2 (str "//service_b:4444/"))).1 = str "service_b:4444" := by
    decide
  have hpath : List.drop (2 + (str "service_b:4444").length) (str "//service_b:4444/") =
      str "/" := by decide
  unfold urlParse
  simp only [hcut, hscheme, hq, hhost, hpath]

/-- The request the Downstream Service reads when the Gateway sent one with
the raw query `cep=<c>`. -/
theorem receive_built (c f : GoString) :
    receive
        { Method := str "GET",
          URL := { Scheme := str "http", Host := str "service_b:4444", Path := str "/",
                   RawQuery := str "cep=" ++ c, Fragment := f } } =
      if (str "/" ++ [0x3F] ++ (str "cep=" ++ c)).contains 0x20 = true then none
      else some (sampleRequest (str "cep=" ++ c)) := rfl

/-- What the Downstream handler reads, when the request is built and
received: there is no control byte and no space before the first `#` of the
postal code, and the value is the one of the key `cep` in the raw query made
of that part. -/
theorem deliveredCep_eq_some (cep v : GoString) (h : deliveredCep cep = some v) :
    stringContainsCTLByte (str "http://service_b:4444/?cep=" ++ (cut 0x23 cep).1) = false ∧
    (0x20 : Fin 256) ∉ (cut 0x23 cep).1 ∧
    valuesGet (parseQuery (str "cep=" ++ (cut 0x23 cep).1)) (str "cep") = v := by
  unfold deliveredCep ServA.newRequest at h
  rw [urlParse_serviceBURL_general cep] at h
  by_cases hctl : stringContainsCTLByte (str "http://service_b:4444/?cep=" ++ (cut 0x23 cep).1) = true
  · simp [hctl] at h
  · simp only [hctl] at h
    cases hf : unescape false (cut 0x23 cep).2 with
    | none => simp [hf] at h
    | some f =>
      simp only [hf] at h
      change Option.map ServB.queryCep
        (receive
          { Method := str "GET",
            URL := { Scheme := str "http", Host := str "service_b:4444", Path := str "/",
                     RawQuery := str "cep=" ++ (cut 0x23 cep).1, Fragment := f } }) = some v at h
      rw [receive_built] at h
      by_cases hsp : (str "/" ++ [0x3F] ++ (str "cep=" ++ (cut 0x23 cep).1)).contains 0x20 = true
      · rw [if_pos hsp] at h
        exact absurd h (by simp)
      · rw [if_neg hsp] at h
        have hv : ServB.queryCep (sampleRequest (str "cep=" ++ (cut 0x23 cep).1)) = v :=
          Option.some.inj h
        refine ⟨by simpa using hctl, ?_, hv⟩
        intro hm
        apply hsp
        simp [hm]

/-- When the key `cep` of the raw query `cep=<c>` has a non-empty value at
least as long as `c`, the value is `c` unescaped, and `c` has no `&` and no
`;`. -/
theorem valuesGet_cep_query (c v : GoString) (hv : v ≠ [])
    (h : valuesGet (parseQuery (str "cep=" ++ c)) (str "cep") = v) (hlen : c.length ≤ v.length) :
    (0x26 : Fin 256) ∉ c ∧ (0x3B : Fin 256) ∉ c ∧ unescape true c = some v := by
  have hm := valuesGet_mem _ _ _ h hv
  have hne : str "cep=" ++ c ≠ [] := by
    intro e
    have := congrArg List.length e
    simp [str, utf8] at this
  have hcut : cut 0x26 (str "cep=" ++ c) = (str "cep=" ++ (cut 0x26 c).1, (cut 0x26 c).2) :=
    cut_append_of_not_mem 0x26 _ c (by decide)
  have hcl := cut_lengths 0x26 c
  have hrest : ∀ n, (str "cep", v) ∈ parseQueryAux n (cut 0x26 c).2 → False := by
    intro n hn
    have := parseQueryAux_pair_length n _ _ _ hn
    have h3 : (str "cep").length = 3 := by decide
    omega
  have hkv : cut 0x3D (str "cep=" ++ (cut 0x26 c).1) = (str "cep", (cut 0x26 c).1) := rfl
  have hk : unescape true (str "cep") = some (str "cep") := by decide
  unfold parseQuery at hm
  rw [parseQueryAux, if_neg hne] at hm
  simp only [hcut, hkv, hk] at hm
  by_cases hs : (str "cep=" ++ (cut 0x26 c).1).contains 0x3B = true
  · rw [if_pos hs] at hm
    exact absurd hm (hrest _)
  · rw [if_neg hs] at hm
    have hkne : str "cep=" ++ (cut 0x26 c).1 ≠ [] := by
      intro e
      have := congrArg List.length e
      simp [str, utf8] at this
    rw [if_neg hkne] at hm
    generalize hu : unescape true (cut 0x26 c).1 = u at hm
    cases u with
    | none => exact absurd hm (hrest _)
    | some v1 =>
      change (str "cep", v) ∈ (str "cep", v1) :: parseQueryAux _ (cut 0x26 c).2 at hm
      rw [List.mem_cons] at hm
      rcases hm with hm | hm
      · have hv1 : v = v1 := (Prod.mk.inj hm).2
        subst hv1
        have hl := unescape_length_le true _ _ hu
        obtain ⟨hamp, hc1⟩ := cut_fst_eq_of_length 0x26 c (by omega)
        rw [hc1] at hu hs
        refine ⟨hamp, ?_, hu⟩
        intro hsemi
        apply hs
        simp [hsemi]
      · exact absurd hm (hrest _)

/-- The Downstream handler reads the postal code the Gateway accepted exactly
when that has no control byte, space, `#`, `%`, `&`, `+` or `;`. -/
theorem deliveredCep_eq_iff_plain (cep : GoString) :
    deliveredCep cep = some cep ↔ ∀ b ∈ cep, plainQueryByte b = true := by
  constructor
  · intro h
    by_cases hne : cep = []
    · subst hne
      simp
    · obtain ⟨hctl, hsp, hval⟩ := deliveredCep_eq_some cep cep h
      have hcl := cut_lengths 0x23 cep
      obtain ⟨hamp, hsemi, hun⟩ := valuesGet_cep_query (cut 0x23 cep).1 cep hne hval (by omega)
      have hl := unescape_length_le true _ _ hun
      obtain ⟨hhash, hc1⟩ := cut_fst_eq_of_length 0x23 cep hl
      rw [hc1] at hctl hsp hamp hsemi hun
      obtain ⟨hpct, hplus⟩ := unescape_fixed cep hun
      intro b hb
      have hctlb : ¬ (b.val < 0x20 ∨ b.val = 0x7f) := by
        unfold stringContainsCTLByte at hctl
        rw [List.any_eq_false] at hctl
        have := hctl b (by simp [hb])
        simpa using this
      have hne_of : ∀ x : Fin 256, x ∉ cep → b.val ≠ x.val := by
        intro x hx e
        exact hx (Fin.ext e ▸ hb)
      have h1 := hne_of 0x20 hsp
      have h2 := hne_of 0x23 hhash
      have h3 := hne_of 0x25 hpct
      have h4 := hne_of 0x26 hamp
      have h5 := hne_of 0x2B hplus
      have h6 := hne_of 0x3B hsemi
      simp only [plainQueryByte, decide_eq_true_eq]
      simp at h1 h2 h3 h4 h5 h6
      omega
  · intro hp
    obtain ⟨req, r, hreq, hrecv, hq⟩ := hop_preserves_plain_cep cep hp
    simp [deliveredCep, hreq, hrecv, hq]

/-- The delivered postal code in terms of the request built and received. -/
theorem deliveredCep_eq_some_iff (cep v : GoString) :
    deliveredCep cep = some v ↔
      ∃ req r, ServA.newRequest (str "GET") (ServA.serviceBURL cep) = .ok req ∧
        receive req = some r ∧ ServB.queryCep r = v := by
  unfold deliveredCep
  cases hreq : ServA.newRequest (str "GET") (ServA.serviceBURL cep) with
  | error err => simp
  | ok req =>
    cases hrecv : receive req with
    | none => simp [hrecv]
    | some r => simp [hrecv]

/-- C8, amended: for every postal code of length 8 the Gateway accepts, the
request to `http://service_b:4444/?cep=<cep>` is built and received and the
value the Downstream handler reads with `r.URL.Query().Get("cep")` is that
postal code, of length 8, exactly when the postal code has no control byte,
space, `#`, `%`, `&`, `+` or `;`. -/
theorem cep_carried_to_downstream (cep : GoString) (h8 : len cep = 8) :
    (∃ req r, ServA.newRequest (str "GET") (ServA.serviceBURL cep) = .ok req ∧
      receive req = some r ∧ ServB.queryCep r = cep ∧ len (ServB.queryCep r) = 8) ↔
    ∀ b ∈ cep, plainQueryByte b = true := by
  rw [← deliveredCep_eq_iff_plain cep, deliveredCep_eq_some_iff]
  constructor
  · rintro ⟨req, r, h1, h2, h3, _⟩
    exact ⟨req, r, h1, h2, h3⟩
  · rintro ⟨req, r, h1, h2, h3⟩
    exact ⟨req, r, h1, h2, h3, by rw [h3]; exact h8⟩

set_option maxRecDepth 100000 in
/-- C8, amended, at the postal code "01001000". -/
theorem cep_carried_to_downstream_witness :
    ∃ req r, ServA.newRequest (str "GET") (ServA.serviceBURL (str "01001000")) = .ok req ∧
      receive req = some r ∧ ServB.queryCep r = str "01001000" ∧ len (ServB.queryCep r) = 8 :=
  (cep_carried_to_downstream (str "01001000") (by decide)).mpr (by decide)
